import Mathlib

/-!
Verification of the retirement-math practice game
(`src/components/BAIIHowToModule.tsx`).

The TypeScript source is shallowly embedded over `ℚ`: JavaScript numbers
become rationals (decimal literals are read exactly), the 32-bit integer
mixing of the seeded PRNG is modelled with `Nat` arithmetic and explicit
`% 2 ^ 32`, and the one place where a JavaScript `NaN` can reach the
grader (an unparsable answer string) is modelled with an explicit `JsNum`
option type whose comparisons are always false on `nan`, exactly as IEEE
comparisons are.
-/

namespace RetireGame

/-! ### Basic enumerations -/

/-- Deposit timing convention of `annualSavings` ("END" | "BEGIN"). -/
inductive Timing
  | END
  | BEGIN
deriving DecidableEq

/-- Result of grading one answer field ("correct" | "incorrect"). -/
inductive Grade
  | correct
  | incorrect
deriving DecidableEq

/-- Difficulty tier of the scenario generator ("easy" | "normal" | "hard"). -/
inductive Difficulty
  | easy
  | normal
  | hard
deriving DecidableEq

/-! ### Grader core (`gradeOne` inside `grade`) -/

/-- Embedding of `gradeOne` from `grade`:
`absErr = Math.abs(userVal - truthVal)`;
`pctErr` is `absErr > 0 ? 1 : 0` when `truthVal === 0`, else
`Math.abs(absErr / truthVal)`;
correct iff `pctErr <= tolPctStrict || absErr <= tolDollar` with
`tolDollar = 500` and `tolPctStrict = 0.01`. -/
def gradeOne (userVal truthVal : ℚ) : Grade :=
  let absErr := |userVal - truthVal|
  let pctErr := if truthVal = 0 then (if 0 < absErr then (1 : ℚ) else 0)
                else |absErr / truthVal|
  if pctErr ≤ 1/100 ∨ absErr ≤ 500 then .correct else .incorrect

/-- Relative error as the specification words it: `|u - t| / |t|` when
`t ≠ 0`, and when `t = 0` it is `1` if `|u - t| > 0` and `0` otherwise. -/
def specRelErr (u t : ℚ) : ℚ :=
  if t = 0 then (if 0 < |u - t| then 1 else 0) else |u - t| / |t|

/-! ### Grader input pipeline (answer strings) -/

/-- JavaScript number that may be `NaN`: the result of `parseFloat`. -/
inductive JsNum
  | nan
  | val (q : ℚ)
deriving DecidableEq

/-- Characters kept by the strip regex (digits, dot, minus). -/
def isNumChar (c : Char) : Bool := c.isDigit || c = '.' || c = '-'

/-- The strip applied to a submitted answer string before `parseFloat`. -/
def stripAnswer (s : List Char) : List Char := s.filter isNumChar

/-- Numeric value of a run of decimal digits, most significant first. -/
def digitsVal (l : List Char) : ℚ :=
  l.foldl (fun acc c => acc * 10 + ((c.toNat - 48 : ℕ) : ℚ)) 0

/-- Unsigned part of `parseFloat` on the post-strip alphabet: longest
prefix `digits* ('.' digits*)?`, requiring at least one digit overall;
`nan` when there is none. -/
def parseCore (rest : List Char) : JsNum :=
  let intDigits := rest.takeWhile Char.isDigit
  let rest2 := rest.dropWhile Char.isDigit
  let fracDigits := if rest2.headD ' ' = '.' then rest2.tail.takeWhile Char.isDigit else []
  if intDigits = [] ∧ fracDigits = [] then JsNum.nan
  else JsNum.val (digitsVal intDigits + digitsVal fracDigits / 10 ^ fracDigits.length)

/-- JavaScript `parseFloat` restricted to strings over the post-strip
alphabet (digits, dot, minus): an optional leading minus, then the longest
valid decimal prefix; `nan` otherwise. `parseFloat` also accepts exponents
and an Infinity literal, but the letters needed for those never survive
the strip. -/
def parseFloatStripped (s : List Char) : JsNum :=
  if s.headD ' ' = '-' then
    match parseCore s.tail with
    | JsNum.nan => JsNum.nan
    | JsNum.val m => JsNum.val (-m)
  else parseCore s

/-- JavaScript comparison `x <= c` where `x` may be `NaN`: false on `NaN`. -/
def jsLe (x : JsNum) (c : ℚ) : Bool :=
  match x with
  | .nan => false
  | .val q => decide (q ≤ c)

/-- `Math.abs(userVal - truthVal)` with `NaN` propagation. -/
def jsAbsSub (u : JsNum) (t : ℚ) : JsNum :=
  match u with
  | .nan => .nan
  | .val q => .val |q - t|

/-- `Math.abs(absErr / truthVal)` with `NaN` propagation (used only when
`truthVal ≠ 0`). -/
def jsAbsDiv (a : JsNum) (t : ℚ) : JsNum :=
  match a with
  | .nan => .nan
  | .val q => .val |q / t|

/-- `absErr > 0` as JavaScript evaluates it: false on `NaN`. -/
def jsPos (a : JsNum) : Bool :=
  match a with
  | .nan => false
  | .val q => decide (0 < q)

/-- `gradeOne` applied to a possibly-`NaN` user value (the `parseFloat`
result), mirroring the source line by line with `NaN`-aware operations. -/
def gradeOneJs (userVal : JsNum) (truthVal : ℚ) : Grade :=
  let absErr := jsAbsSub userVal truthVal
  let pctErr := if truthVal = 0 then (if jsPos absErr then JsNum.val 1 else JsNum.val 0)
                else jsAbsDiv absErr truthVal
  if jsLe pctErr (1/100) || jsLe absErr 500 then .correct else .incorrect

/-- One answer field of `grade`: the submitted string defaults to "0" when
empty or missing, is stripped to digits, dot and minus, parsed with
`parseFloat`, and graded against the truth value. -/
def gradeField (raw : List Char) (truthVal : ℚ) : Grade :=
  let s := if raw = [] then ['0'] else raw
  gradeOneJs (parseFloatStripped (stripAnswer s)) truthVal

/-! ### Finance engine -/

/-- Embedding of `computeRealRate`: `(1 + r) / (1 + g) - 1`. -/
def computeRealRate (r g : ℚ) : ℚ := (1 + r) / (1 + g) - 1

/-- Embedding of `capitalAnnuity(pmt1, rReal, RLE)`: if `|rReal| < 1e-12`
return `pmt1 * RLE`, else `pmt1 * ((1 - (1+rReal)^-RLE) / rReal) * (1+rReal)`. -/
def capitalAnnuity (pmt1 rReal : ℚ) (RLE : ℕ) : ℚ :=
  if |rReal| < 1/10^12 then pmt1 * RLE
  else pmt1 * ((1 - (1 + rReal) ^ (-(RLE : ℤ))) / rReal) * (1 + rReal)

/-- Embedding of `annualSavings(PVcur, K, r, N, timing)`:
`FVexist = PVcur*(1+r)^N`; `need = K - FVexist`; if `need <= 0` return 0;
`pmtEnd = need / N` when `|r| < 1e-12` else `need / (((1+r)^N - 1)/r)`;
return `pmtEnd / (1+r)` for BEGIN timing, `pmtEnd` for END. -/
def annualSavings (PVcur K r : ℚ) (N : ℕ) (timing : Timing) : ℚ :=
  let FVexist := PVcur * (1 + r) ^ N
  let need := K - FVexist
  if need ≤ 0 then 0
  else
    let pmtEnd := if |r| < 1/10^12 then need / N else need / (((1 + r) ^ N - 1) / r)
    match timing with
    | .BEGIN => pmtEnd / (1 + r)
    | .END => pmtEnd

/-! ### Seeded PRNG (`mulberry32`) and seed deriver (`splitSeed`) -/

/-- State advance of `mulberry32`: `t += 0x6D2B79F5`, kept modulo `2 ^ 32`.
JavaScript stores the raw float sum, but every use of `t` coerces it with
`ToInt32`/`ToUint32`, which depend only on the value modulo `2 ^ 32`, so
keeping the state reduced is observationally identical. -/
def m32step (state : ℕ) : ℕ := (state + 0x6D2B79F5) % 2 ^ 32

/-- The avalanche mix of `mulberry32` applied to the advanced state:
`r = imul(t ^ (t >>> 15), 1 | t)`; then
`r ^= r + imul(r ^ (r >>> 7), 61 | r)`; result `(r ^ (r >>> 14)) >>> 0`.
`Math.imul` is 32-bit multiplication, written here as multiplication
modulo `2 ^ 32`; the one float addition `r + imul(...)` of two 32-bit
values is exact in a 64-bit float and is reduced modulo `2 ^ 32` by the
`ToInt32` coercion of the xor that consumes it. -/
def m32mix (t : ℕ) : ℕ :=
  let r1 := ((t ^^^ (t >>> 15)) * (1 ||| t)) % 2 ^ 32
  let r2 := r1 ^^^ ((r1 + ((r1 ^^^ (r1 >>> 7)) * (61 ||| r1)) % 2 ^ 32) % 2 ^ 32)
  r2 ^^^ (r2 >>> 14)

/-- Output in `[0,1)` of a `mulberry32` call entered with `state`: the
mixed advanced state divided by `4294967296`. -/
def m32out (state : ℕ) : ℚ := (m32mix (m32step state) : ℚ) / 2 ^ 32

/-- Embedding of `splitSeed(base, idx) = (base ^ imul(idx + 1, GOLD)) >>> 0`
with `GOLD = 0x9E3779B9`. -/
def splitSeed (base idx : ℕ) : ℕ :=
  (base % 2 ^ 32) ^^^ (((idx + 1) * 0x9E3779B9) % 2 ^ 32)

/-- Embedding of `randInt(rng, lo, hi) = lo + Math.floor(rng() * (hi - lo + 1))`,
with `u` the value drawn from the generator. -/
def randInt (u lo hi : ℚ) : ℚ := lo + (⌊u * (hi - lo + 1)⌋ : ℤ)

/-- Embedding of `randFloat(rng, lo, hi) = lo + rng() * (hi - lo)`. -/
def randFloat (u lo hi : ℚ) : ℚ := lo + u * (hi - lo)

/-- `randInt` specialised to natural bounds and read back as a natural
number: used for the year counts and the list indices, which the source
draws from non-negative integer ranges (for `u ≥ 0` the drawn value is
at least `lo`, so the `Int.toNat` readback is faithful). -/
def randIntN (u : ℚ) (lo hi : ℕ) : ℕ :=
  lo + (⌊u * ((hi : ℚ) - (lo : ℚ) + 1)⌋).toNat

/-- JavaScript `Math.round`: round half toward positive infinity. -/
def jround (x : ℚ) : ℤ := ⌊x + 1/2⌋

/-- `Math.round(x / m) * m` on a natural number: the easy-tier rounding of
the year counts to multiples of 5. -/
def roundMulN (x m : ℕ) : ℕ := (jround ((x : ℚ) / (m : ℚ))).toNat * m

/-! ### Scenario generator -/

/-- A generated game scenario; the cosmetic name and bio fields are
omitted (their draws happen after every numeric field's draw). -/
structure GameScenario where
  income : ℚ
  wrr : ℚ
  ss : ℚ
  rwle : ℕ
  rle : ℕ
  g : ℚ
  r : ℚ
  pvcur : ℚ
  rRetire : Option ℚ
  bequest : Option ℚ

/-- One row of the `RANGES` table: inclusive lo/hi bounds per field. -/
structure Ranges where
  income : ℚ × ℚ
  wrr : ℚ × ℚ
  ss : ℚ × ℚ
  rwle : ℕ × ℕ
  rle : ℕ × ℕ
  g : ℚ × ℚ
  r : ℚ × ℚ
  pvcur : ℚ × ℚ

/-- The literal `RANGES` table of the source. -/
def RANGES : Difficulty → Ranges
  | .easy => ⟨(50000, 90000), (0.65, 0.85), (12000, 28000), (15, 25), (20, 30),
      (0.02, 0.035), (0.06, 0.09), (0, 50000)⟩
  | .normal => ⟨(60000, 120000), (0.7, 0.85), (15000, 30000), (20, 35), (20, 35),
      (0.02, 0.04), (0.07, 0.1), (0, 200000)⟩
  | .hard => ⟨(80000, 180000), (0.7, 0.9), (15000, 40000), (10, 35), (20, 35),
      (0.025, 0.045), (0.07, 0.11), (0, 400000)⟩

/-- Embedding of `generateScenarioFromSeed(baseSeed, difficulty)`. The
single `mulberry32` instance is threaded explicitly: draw `i` reads
`m32out` of the state after `i` advances, in the source's fixed call
order (income, wrr, ss, rwle, rle, g, r, pvcur, then tier extras). -/
def generateScenarioFromSeed (baseSeed : ℕ) (d : Difficulty) : GameScenario :=
  let rg := RANGES d
  let s0 := baseSeed % 2 ^ 32
  let income := randInt (m32out s0) rg.income.1 rg.income.2
  let s1 := m32step s0
  let wrr := randFloat (m32out s1) rg.wrr.1 rg.wrr.2
  let s2 := m32step s1
  let ss := randInt (m32out s2) rg.ss.1 rg.ss.2
  let s3 := m32step s2
  let rwle := randIntN (m32out s3) rg.rwle.1 rg.rwle.2
  let s4 := m32step s3
  let rle := randIntN (m32out s4) rg.rle.1 rg.rle.2
  let s5 := m32step s4
  let g := randFloat (m32out s5) rg.g.1 rg.g.2
  let s6 := m32step s5
  let r0 := randFloat (m32out s6) rg.r.1 rg.r.2
  let r := if r0 ≤ g then g + 0.0005 else r0
  let s7 := m32step s6
  let pvcur := randInt (m32out s7) rg.pvcur.1 rg.pvcur.2
  let s8 := m32step s7
  match d with
  | .normal =>
      { income, wrr, ss, rwle, rle, g, r, pvcur, rRetire := none, bequest := none }
  | .easy =>
      let wrrChoices : List ℚ := [0.70, 0.75, 0.80, 0.85]
      let gChoices : List ℚ := [0.020, 0.025, 0.030, 0.035]
      let rChoices : List ℚ := [0.060, 0.070, 0.080, 0.090]
      let wrrE := wrrChoices.getD (randIntN (m32out s8) 0 (wrrChoices.length - 1)) 0
      let s9 := m32step s8
      let gE := gChoices.getD (randIntN (m32out s9) 0 (gChoices.length - 1)) 0
      let s10 := m32step s9
      let rE0 := rChoices.getD (randIntN (m32out s10) 0 (rChoices.length - 1)) 0
      let rE := if rE0 ≤ gE then gE + 0.005 else rE0
      { income := (jround (income / 1000) : ℚ) * 1000,
        wrr := wrrE,
        ss := (jround (ss / 1000) : ℚ) * 1000,
        rwle := roundMulN rwle 5,
        rle := roundMulN rle 5,
        g := gE, r := rE, pvcur := 0, rRetire := none, bequest := none }
  | .hard =>
      let delta := randFloat (m32out s8) (-0.02) 0.02
      let s9 := m32step s8
      let rRetire0 := max 0 (r + delta)
      let rRetire := if rRetire0 ≤ g then g + 0.0005 else rRetire0
      let rDuring := rRetire
      let need_today := max 0 (wrr * income - ss)
      let PMT1 := need_today * (1 + g) ^ rwle
      let r_real := computeRealRate rDuring g
      let capA_est := capitalAnnuity PMT1 r_real rle
      let ratio := randFloat (m32out s9) 0.05 0.25
      let bequest := max 0 ((jround (capA_est * ratio / 1000) : ℚ) * 1000)
      { income, wrr, ss, rwle, rle, g, r, pvcur,
        rRetire := some rRetire, bequest := some bequest }

/-! ### Truth computation -/

/-- The computed ground-truth bundle for a scenario. -/
structure GameTruth where
  need_today : ℚ
  PMT1 : ℚ
  r_real : ℚ
  capA : ℚ
  keepCPM : ℚ
  totalCPM : ℚ
  keepPPPM : ℚ
  totalPPPM : ℚ
  svA : ℚ
  svCPM : ℚ
  svPPPM : ℚ

/-- Embedding of `computeGameTruth(scn, timing)`. The bequest guard is
JavaScript truthiness: a missing or zero bequest contributes nothing. -/
def computeGameTruth (scn : GameScenario) (timing : Timing) : GameTruth :=
  let need_today := max 0 (scn.wrr * scn.income - scn.ss)
  let PMT1 := need_today * (1 + scn.g) ^ scn.rwle
  let rDuring := scn.rRetire.getD scn.r
  let r_real := computeRealRate rDuring scn.g
  let bequestPV := match scn.bequest with
    | some b => if b = 0 then 0 else b / (1 + r_real) ^ scn.rle
    | none => 0
  let capA := capitalAnnuity PMT1 r_real scn.rle + bequestPV
  let keepCPM := capA / (1 + rDuring) ^ scn.rle
  let totalCPM := capA + keepCPM
  let keepPPPM := capA / (1 + r_real) ^ scn.rle
  let totalPPPM := capA + keepPPPM
  let svA := annualSavings scn.pvcur capA scn.r scn.rwle timing
  let svCPM := annualSavings scn.pvcur totalCPM scn.r scn.rwle timing
  let svPPPM := annualSavings scn.pvcur totalPPPM scn.r scn.rwle timing
  ⟨need_today, PMT1, r_real, capA, keepCPM, totalCPM, keepPPPM, totalPPPM,
    svA, svCPM, svPPPM⟩

/-! ## Theorems -/

/-! ### Helper lemmas -/

/-- The avalanche mix always lands below `2 ^ 32`. -/
theorem m32mix_lt (t : ℕ) : m32mix t < 2 ^ 32 := by
  have hx : ∀ a b : ℕ, a < 2 ^ 32 → b < 2 ^ 32 → a ^^^ b < 2 ^ 32 :=
    fun a b ha hb => Nat.bitwise_lt ha hb
  have hsh : ∀ a k : ℕ, a >>> k ≤ a := fun a k => by
    rw [Nat.shiftRight_eq_div_pow]
    exact Nat.div_le_self a _
  unfold m32mix
  simp only []
  apply hx
  · apply hx
    · exact Nat.mod_lt _ (by norm_num)
    · exact Nat.mod_lt _ (by norm_num)
  · apply lt_of_le_of_lt (hsh _ _)
    apply hx
    · exact Nat.mod_lt _ (by norm_num)
    · exact Nat.mod_lt _ (by norm_num)

/-- Every generator output is non-negative. -/
theorem m32out_nonneg (s : ℕ) : 0 ≤ m32out s := by
  unfold m32out
  positivity

/-- Every generator output is below one. -/
theorem m32out_lt_one (s : ℕ) : m32out s < 1 := by
  unfold m32out
  rw [div_lt_one (by positivity)]
  exact_mod_cast m32mix_lt (m32step s)

/-- `randIntN` stays within its inclusive upper bound for draws in `[0,1)`. -/
theorem randIntN_le (u : ℚ) (lo hi : ℕ) (h1 : u < 1) (hlh : lo ≤ hi) :
    randIntN u lo hi ≤ hi := by
  unfold randIntN
  have hw : (0:ℚ) < (hi : ℚ) - (lo : ℚ) + 1 := by
    have : (lo : ℚ) ≤ hi := by exact_mod_cast hlh
    linarith
  have h2 : ⌊u * ((hi : ℚ) - (lo : ℚ) + 1)⌋ < (hi : ℤ) - (lo : ℤ) + 1 := by
    apply Int.floor_lt.mpr
    push_cast
    calc u * ((hi : ℚ) - (lo : ℚ) + 1) < 1 * ((hi : ℚ) - (lo : ℚ) + 1) :=
          mul_lt_mul_of_pos_right h1 hw
    _ = (hi : ℚ) - (lo : ℚ) + 1 := one_mul _
  omega

/-- Indexing a four-element list at an easy-tier draw stays in the list. -/
theorem easyChoice_mem (u x a b c e : ℚ) (h1 : u < 1) :
    ([a, b, c, e].getD (randIntN u 0 ([a, b, c, e].length - 1)) x) ∈ [a, b, c, e] := by
  have hlen : ([a, b, c, e] : List ℚ).length - 1 = 3 := rfl
  rw [hlen]
  have hle := randIntN_le u 0 3 h1 (by norm_num)
  set n := randIntN u 0 3 with hn
  interval_cases n <;> simp [List.getD]

/-- The ten derived mix values for indices 0..9 are pairwise distinct. -/
theorem splitSeed_mix_inj : ∀ i, i < 10 → ∀ j, j < 10 →
    ((i + 1) * 0x9E3779B9) % 2 ^ 32 = ((j + 1) * 0x9E3779B9) % 2 ^ 32 → i = j := by
  intro i hi j hj h
  interval_cases i <;> interval_cases j <;> omega

/-- `gradeOneJs` on an actual number agrees with `gradeOne`. -/
theorem gradeOneJs_val (u t : ℚ) : gradeOneJs (JsNum.val u) t = gradeOne u t := by
  unfold gradeOneJs gradeOne jsAbsSub jsAbsDiv jsPos jsLe
  by_cases ht : t = 0 <;> simp [ht] <;> split_ifs <;> simp_all

/-- `parseFloat` of the empty string is `NaN`. -/
theorem parse_nil : parseFloatStripped [] = JsNum.nan := by
  unfold parseFloatStripped
  rw [if_neg (by decide)]
  unfold parseCore
  simp

/-- `parseFloat` of the default string "0" is the number 0. -/
theorem parse_zero : parseFloatStripped ['0'] = JsNum.val 0 := by
  unfold parseFloatStripped
  rw [if_neg (by decide)]
  unfold parseCore
  have ht : List.takeWhile Char.isDigit ['0'] = ['0'] := by decide
  have hd : List.dropWhile Char.isDigit ['0'] = [] := by decide
  have h48 : ('0'.toNat - 48 : ℕ) = 0 := by decide
  simp only [ht, hd]
  rw [if_neg (by decide)]
  rw [if_neg (by simp)]
  simp only [JsNum.val.injEq, digitsVal, List.foldl, h48]
  norm_num

/-- The letters of "abc" are all removed by the strip. -/
theorem stripAnswer_abc : stripAnswer ['a', 'b', 'c'] = [] := by decide

/-- Grading a `NaN` user value: correct exactly when the truth is 0. -/
theorem gradeOneJs_nan (t : ℚ) :
    gradeOneJs JsNum.nan t = (if t = 0 then Grade.correct else Grade.incorrect) := by
  unfold gradeOneJs jsAbsSub jsAbsDiv jsPos jsLe
  by_cases ht : t = 0 <;> simp [ht]

/-! ### Claims about the grader (C1, C5, C6) -/

/-- Claim C1: for every submitted numeric value `u` and truth `t`,
`gradeOne` marks the field correct if and only if the relative error (as
defined by the spec) is at most 1% or the absolute error `|u - t|` is at
most 500. -/
theorem gradeOne_iff_tolerance (u t : ℚ) :
    gradeOne u t = Grade.correct ↔ (specRelErr u t ≤ 1/100 ∨ |u - t| ≤ 500) := by
  have hpe : (if t = 0 then (if 0 < |u - t| then (1:ℚ) else 0) else |(|u - t|) / t|)
      = specRelErr u t := by
    unfold specRelErr
    by_cases ht : t = 0
    · simp [ht]
    · simp only [if_neg ht]
      rw [abs_div, abs_abs]
  simp only [gradeOne]
  rw [hpe]
  split_ifs with h
  · simpa using h
  · simp only [show (Grade.incorrect = Grade.correct) = False from by simp, false_iff]
    push_neg at h
    simpa using h

/-- Claim C5 counterexample: the claim asserts that a user answer of 100
against a truth of 0 grades incorrect, but the code grades it correct,
because the absolute error 100 is within the flat $500 tolerance. -/
theorem gradeOne_hundred_vs_zero_counterexample :
    gradeOne 100 0 = Grade.correct ∧ gradeOne 100 0 ≠ Grade.incorrect := by
  constructor
  · norm_num [gradeOne]
  · have hc : gradeOne 100 0 = Grade.correct := by norm_num [gradeOne]
    rw [hc]
    exact fun hcontra => Grade.noConfusion hcontra

/-- Claim C5 (amended): grading against a truth value of exactly 0, a user
answer of 0 is marked correct, and a user answer of 100 is also marked
correct (its absolute error 100 lies within the $500 absolute tolerance);
an answer of 501 is marked incorrect. -/
theorem gradeOne_zero_truth :
    gradeOne 0 0 = Grade.correct ∧ gradeOne 100 0 = Grade.correct ∧
    gradeOne 501 0 = Grade.incorrect := by
  refine ⟨by norm_num [gradeOne], by norm_num [gradeOne], by norm_num [gradeOne]⟩

/-- Claim C6 counterexample: the claim asserts an unparsable submitted
string is graded exactly as the number 0, but against a truth of 300 the
string "abc" grades incorrect (its `parseFloat` is `NaN`, which fails
every tolerance comparison) while the number 0 grades correct (absolute
error 300 is within the $500 tolerance). -/
theorem grade_unparsable_counterexample :
    gradeField ['a', 'b', 'c'] 300 = Grade.incorrect ∧ gradeOne 0 300 = Grade.correct := by
  constructor
  · have h : gradeField ['a', 'b', 'c'] 300
        = gradeOneJs (parseFloatStripped (stripAnswer ['a', 'b', 'c'])) 300 := by
      simp only [gradeField]
      rw [if_neg (by simp)]
    rw [h, stripAnswer_abc, parse_nil, gradeOneJs_nan, if_neg (by norm_num)]
  · norm_num [gradeOne]

/-- Claim C6 (amended): the grader strips all characters other than
digits, dot and minus and parses the rest as a real number; an empty
submitted string is graded exactly as the number 0, and a non-empty
string whose stripped form is unparsable yields `NaN`, which grades
correct exactly when the truth value is 0 and incorrect otherwise; a
parsable stripped string is graded at its parsed value. -/
theorem grade_input_treatment (t : ℚ) :
    gradeField [] t = gradeOne 0 t ∧
    (∀ raw : List Char, raw ≠ [] → parseFloatStripped (stripAnswer raw) = JsNum.nan →
      gradeField raw t = (if t = 0 then Grade.correct else Grade.incorrect)) ∧
    (∀ (raw : List Char) (q : ℚ), raw ≠ [] →
      parseFloatStripped (stripAnswer raw) = JsNum.val q →
      gradeField raw t = gradeOne q t) := by
  refine ⟨?_, ?_, ?_⟩
  · have h : gradeField [] t = gradeOneJs (parseFloatStripped (stripAnswer ['0'])) t := by
      simp [gradeField]
    have hs : stripAnswer ['0'] = ['0'] := by decide
    rw [h, hs, parse_zero, gradeOneJs_val]
  · intro raw hne hnan
    simp only [gradeField]
    rw [if_neg hne, hnan, gradeOneJs_nan]
  · intro raw q hne hval
    simp only [gradeField]
    rw [if_neg hne, hval, gradeOneJs_val]

/-- Witness for C6: the unparsable string "abc" against truth 5 grades
incorrect, via the amended theorem. -/
theorem grade_input_treatment_witness :
    (['a', 'b', 'c'] : List Char) ≠ [] ∧
    parseFloatStripped (stripAnswer ['a', 'b', 'c']) = JsNum.nan ∧
    gradeField ['a', 'b', 'c'] 5 = (if (5 : ℚ) = 0 then Grade.correct else Grade.incorrect) :=
  ⟨by simp, by rw [stripAnswer_abc, parse_nil],
    (grade_input_treatment 5).2.1 ['a', 'b', 'c'] (by simp)
      (by rw [stripAnswer_abc, parse_nil])⟩

/-! ### Claims about the finance engine (C2, C3) -/

/-- Claim C3: for every `pmt1`, every `rReal` and every positive `RLE`,
`capitalAnnuity` equals `pmt1 * RLE` when `|rReal| < 1e-12` (in particular
exactly `pmt1 * RLE` at `rReal = 0`) and otherwise equals the annuity-due
closed form `pmt1 * ((1 - (1+rReal)^-RLE)/rReal) * (1+rReal)`. -/
theorem capitalAnnuity_formula (pmt1 rReal : ℚ) (RLE : ℕ) (hRLE : 1 ≤ RLE) :
    capitalAnnuity pmt1 0 RLE = pmt1 * (RLE : ℚ) ∧
    (|rReal| < 1/10^12 → capitalAnnuity pmt1 rReal RLE = pmt1 * (RLE : ℚ)) ∧
    (1/10^12 ≤ |rReal| →
      capitalAnnuity pmt1 rReal RLE
        = pmt1 * ((1 - (1 + rReal) ^ (-(RLE : ℤ))) / rReal) * (1 + rReal)) := by
  refine ⟨?_, ?_, ?_⟩
  · unfold capitalAnnuity
    rw [if_pos (by norm_num)]
  · intro h
    unfold capitalAnnuity
    rw [if_pos h]
  · intro h
    unfold capitalAnnuity
    rw [if_neg (not_lt.mpr h)]

/-- Witness for C3 at `pmt1 = 5`, `rReal = 0`, `RLE = 10`. -/
theorem capitalAnnuity_formula_witness :
    1 ≤ 10 ∧ capitalAnnuity 5 0 10 = 5 * ((10 : ℕ) : ℚ) :=
  ⟨by norm_num, (capitalAnnuity_formula 5 0 10 (by norm_num)).1⟩

/-- Claim C2 counterexample: the claim asserts `annualSavings` never
returns a negative value, but at `PVcur = 0`, `K = 100`, `r = -2`, `N = 1`
with begin-of-period timing the code returns `-100 < 0`: the payment is
divided by `1 + r = -1`, flipping its sign. -/
theorem annualSavings_negative_counterexample :
    annualSavings 0 100 (-2) 1 Timing.BEGIN < 0 := by
  norm_num [annualSavings]

/-- Claim C2 (amended): for every rate `r > -1` and horizon `N ≥ 1`,
`annualSavings(PVcur, K, r, N, timing)` never returns a negative value,
and it returns exactly 0 whenever `PVcur*(1+r)^N ≥ K`; otherwise it
returns `need/N` when `|r| < 1e-12` and `need/(((1+r)^N - 1)/r)` when
`|r| ≥ 1e-12` (with `need = K - PVcur*(1+r)^N`), divided by `1+r` when
timing is begin-of-period. -/
theorem annualSavings_props (PVcur K r : ℚ) (N : ℕ) (timing : Timing)
    (hr : -1 < r) (hN : 1 ≤ N) :
    0 ≤ annualSavings PVcur K r N timing ∧
    (K - PVcur * (1 + r) ^ N ≤ 0 → annualSavings PVcur K r N timing = 0) ∧
    (0 < K - PVcur * (1 + r) ^ N →
      annualSavings PVcur K r N timing =
        (match timing with
         | Timing.BEGIN =>
             (if |r| < 1/10^12 then (K - PVcur * (1 + r) ^ N) / N
              else (K - PVcur * (1 + r) ^ N) / (((1 + r) ^ N - 1) / r)) / (1 + r)
         | Timing.END =>
             (if |r| < 1/10^12 then (K - PVcur * (1 + r) ^ N) / N
              else (K - PVcur * (1 + r) ^ N) / (((1 + r) ^ N - 1) / r)))) := by
  have h1r : (0:ℚ) < 1 + r := by linarith
  have hform : 0 < K - PVcur * (1 + r) ^ N →
      annualSavings PVcur K r N timing =
        (match timing with
         | Timing.BEGIN =>
             (if |r| < 1/10^12 then (K - PVcur * (1 + r) ^ N) / N
              else (K - PVcur * (1 + r) ^ N) / (((1 + r) ^ N - 1) / r)) / (1 + r)
         | Timing.END =>
             (if |r| < 1/10^12 then (K - PVcur * (1 + r) ^ N) / N
              else (K - PVcur * (1 + r) ^ N) / (((1 + r) ^ N - 1) / r))) := by
    intro hlt
    simp only [annualSavings]
    rw [if_neg (not_le.mpr hlt)]
  refine ⟨?_, ?_, hform⟩
  · rcases le_or_lt (K - PVcur * (1 + r) ^ N) 0 with hle | hlt
    · simp only [annualSavings]
      rw [if_pos hle]
    · rw [hform hlt]
      have hneed : 0 ≤ K - PVcur * (1 + r) ^ N := le_of_lt hlt
      have hpm : 0 ≤ (if |r| < 1/10^12 then (K - PVcur * (1 + r) ^ N) / N
          else (K - PVcur * (1 + r) ^ N) / (((1 + r) ^ N - 1) / r)) := by
        split_ifs with hsr
        · exact div_nonneg hneed (by positivity)
        · apply div_nonneg hneed
          rcases lt_trichotomy r 0 with hneg | hzero | hpos
          · have hle1 : (1 + r) ^ N ≤ 1 := pow_le_one₀ (by linarith) (by linarith)
            rw [div_nonneg_iff]
            right
            exact ⟨by linarith, le_of_lt hneg⟩
          · exfalso
            apply hsr
            rw [hzero]
            norm_num
          · have hge1 : (1:ℚ) ≤ (1 + r) ^ N := one_le_pow₀ (by linarith)
            rw [div_nonneg_iff]
            left
            exact ⟨by linarith, le_of_lt hpos⟩
      cases timing with
      | BEGIN => exact div_nonneg hpm (le_of_lt h1r)
      | END => exact hpm
  · intro hle
    simp only [annualSavings]
    rw [if_pos hle]

/-- Witness for C2 at `PVcur = 0`, `K = 100`, `r = 0`, `N = 2`, END timing. -/
theorem annualSavings_props_witness :
    (-1 : ℚ) < 0 ∧ (1 : ℕ) ≤ 2 ∧ 0 ≤ annualSavings 0 100 0 2 Timing.END :=
  ⟨by norm_num, by norm_num,
    (annualSavings_props 0 100 0 2 Timing.END (by norm_num) (by norm_num)).1⟩

/-! ### Claims about the generator and seed deriver (C4, C7, C8) -/

/-- Claim C4: for every seed and difficulty tier, the generated scenario
satisfies `r > g` strictly, and `rRetire > g` strictly whenever the
`rRetire` field is present. -/
theorem generate_rate_invariant (seed : ℕ) (d : Difficulty) :
    (generateScenarioFromSeed seed d).g < (generateScenarioFromSeed seed d).r ∧
    (∀ x ∈ (generateScenarioFromSeed seed d).rRetire,
      (generateScenarioFromSeed seed d).g < x) := by
  cases d with
  | normal =>
      simp only [generateScenarioFromSeed]
      refine ⟨?_, by simp⟩
      split_ifs with h
      · linarith
      · exact lt_of_not_le h
  | easy =>
      simp only [generateScenarioFromSeed]
      refine ⟨?_, by simp⟩
      split_ifs with h
      · linarith
      · exact lt_of_not_le h
  | hard =>
      simp only [generateScenarioFromSeed]
      constructor
      · split_ifs with h
        · linarith
        · exact lt_of_not_le h
      · intro x hx
        simp only [Option.mem_def, Option.some.injEq] at hx
        subst hx
        split_ifs <;> first
          | linarith
          | (apply lt_of_not_le; assumption)

/-- Claim C7: for every seed, the easy-tier scenario has `pvcur = 0`,
`wrr` in the four-value set 0.70..0.85, `g` in 0.020..0.035, `r` in
0.060..0.090, income and pension multiples of 1000, and the two year
counts multiples of 5. -/
theorem easy_scenario_props (seed : ℕ) :
    (generateScenarioFromSeed seed .easy).pvcur = 0 ∧
    (generateScenarioFromSeed seed .easy).wrr ∈ ([0.70, 0.75, 0.80, 0.85] : List ℚ) ∧
    (generateScenarioFromSeed seed .easy).g ∈ ([0.020, 0.025, 0.030, 0.035] : List ℚ) ∧
    (generateScenarioFromSeed seed .easy).r ∈ ([0.060, 0.070, 0.080, 0.090] : List ℚ) ∧
    (∃ k : ℤ, (generateScenarioFromSeed seed .easy).income = 1000 * (k : ℚ)) ∧
    (∃ k : ℤ, (generateScenarioFromSeed seed .easy).ss = 1000 * (k : ℚ)) ∧
    5 ∣ (generateScenarioFromSeed seed .easy).rwle ∧
    5 ∣ (generateScenarioFromSeed seed .easy).rle := by
  have key : ∀ gE rE0 : ℚ, gE ∈ ([0.020, 0.025, 0.030, 0.035] : List ℚ) →
      rE0 ∈ ([0.060, 0.070, 0.080, 0.090] : List ℚ) →
      (if rE0 ≤ gE then gE + 0.005 else rE0) ∈ ([0.060, 0.070, 0.080, 0.090] : List ℚ) := by
    intro gE rE0 hg hr
    have hgle : gE ≤ 0.035 := by fin_cases hg <;> norm_num
    have hrge : (0.060 : ℚ) ≤ rE0 := by fin_cases hr <;> norm_num
    rw [if_neg (by intro hc; linarith)]
    exact hr
  simp only [generateScenarioFromSeed]
  refine ⟨trivial, ?_, ?_, ?_, ⟨jround _, mul_comm _ _⟩, ⟨jround _, mul_comm _ _⟩,
    dvd_mul_left 5 _, dvd_mul_left 5 _⟩
  · exact easyChoice_mem _ _ _ _ _ _ (m32out_lt_one _)
  · exact easyChoice_mem _ _ _ _ _ _ (m32out_lt_one _)
  · exact key _ _
      (easyChoice_mem _ _ _ _ _ _ (m32out_lt_one _))
      (easyChoice_mem _ _ _ _ _ _ (m32out_lt_one _))

/-- Claim C8: `splitSeed(base, index)` equals
`base XOR ((index+1) * 0x9E3779B9 mod 2^32)` in 32-bit unsigned
arithmetic, and for a fixed 32-bit base the ten derived seeds at indices
0..9 are pairwise distinct. -/
theorem splitSeed_props (base : ℕ) (hb : base < 2 ^ 32) :
    (∀ idx : ℕ, splitSeed base idx = base ^^^ (((idx + 1) * 0x9E3779B9) % 2 ^ 32)) ∧
    (∀ i j : ℕ, i ≤ 9 → j ≤ 9 → splitSeed base i = splitSeed base j → i = j) := by
  constructor
  · intro idx
    unfold splitSeed
    rw [Nat.mod_eq_of_lt hb]
  · intro i j hi hj h
    unfold splitSeed at h
    have h2 := congrArg (fun x => (base % 2 ^ 32) ^^^ x) h
    simp only [Nat.xor_cancel_left] at h2
    exact splitSeed_mix_inj i (Nat.lt_succ_of_le hi) j (Nat.lt_succ_of_le hj) h2

/-- Witness for C8 at `base = 42`, `index = 0`. -/
theorem splitSeed_props_witness :
    (42 : ℕ) < 2 ^ 32 ∧ splitSeed 42 0 = 42 ^^^ (((0 + 1) * 0x9E3779B9) % 2 ^ 32) :=
  ⟨by norm_num, (splitSeed_props 42 (by norm_num)).1 0⟩

/-! ### Claims about the truth computation (C9, C10) -/

/-- Claim C9: for every scenario with positive `need_today`, no bequest,
in-retirement rate strictly above the inflation rate, inflation above -1
and at least one retirement year, both `totalCPM` and `totalPPPM` strictly
exceed `capA`. -/
theorem totals_exceed_capA (scn : GameScenario) (timing : Timing)
    (hb : scn.bequest = none)
    (hneed : 0 < (computeGameTruth scn timing).need_today)
    (hrg : scn.g < scn.rRetire.getD scn.r)
    (hg : -1 < scn.g)
    (hrle : 1 ≤ scn.rle) :
    (computeGameTruth scn timing).capA < (computeGameTruth scn timing).totalCPM ∧
    (computeGameTruth scn timing).capA < (computeGameTruth scn timing).totalPPPM := by
  have h1g : (0:ℚ) < 1 + scn.g := by linarith
  have h1rd : (0:ℚ) < 1 + scn.rRetire.getD scn.r := by linarith
  have hrreal : 0 < computeRealRate (scn.rRetire.getD scn.r) scn.g := by
    unfold computeRealRate
    have : 1 < (1 + scn.rRetire.getD scn.r) / (1 + scn.g) :=
      (one_lt_div h1g).mpr (by linarith)
    linarith
  have h1rr : (0:ℚ) < 1 + computeRealRate (scn.rRetire.getD scn.r) scn.g := by linarith
  have hneed' : 0 < max 0 (scn.wrr * scn.income - scn.ss) := by
    have hpr : (computeGameTruth scn timing).need_today
        = max 0 (scn.wrr * scn.income - scn.ss) := by
      simp [computeGameTruth]
    rwa [hpr] at hneed
  have hPMT1 : 0 < max 0 (scn.wrr * scn.income - scn.ss) * (1 + scn.g) ^ scn.rwle :=
    mul_pos hneed' (pow_pos h1g _)
  have hCA : 0 < capitalAnnuity
      (max 0 (scn.wrr * scn.income - scn.ss) * (1 + scn.g) ^ scn.rwle)
      (computeRealRate (scn.rRetire.getD scn.r) scn.g) scn.rle := by
    unfold capitalAnnuity
    split_ifs with hsm
    · apply mul_pos hPMT1
      have : (0:ℕ) < scn.rle := hrle
      exact_mod_cast this
    · have hz : (1 + computeRealRate (scn.rRetire.getD scn.r) scn.g) ^ (-(scn.rle : ℤ))
          = ((1 + computeRealRate (scn.rRetire.getD scn.r) scn.g) ^ scn.rle)⁻¹ := by
        rw [zpow_neg, zpow_natCast]
      have hpow : 1 < (1 + computeRealRate (scn.rRetire.getD scn.r) scn.g) ^ scn.rle :=
        one_lt_pow₀ (by linarith) (by omega)
      have hzlt : ((1 + computeRealRate (scn.rRetire.getD scn.r) scn.g) ^ scn.rle)⁻¹ < 1 :=
        inv_lt_one_of_one_lt₀ hpow
      apply mul_pos (mul_pos hPMT1 _) h1rr
      rw [hz]
      apply div_pos (by linarith) hrreal
  have hcapA : (computeGameTruth scn timing).capA
      = capitalAnnuity (max 0 (scn.wrr * scn.income - scn.ss) * (1 + scn.g) ^ scn.rwle)
          (computeRealRate (scn.rRetire.getD scn.r) scn.g) scn.rle := by
    simp [computeGameTruth, hb]
  have htotCPM : (computeGameTruth scn timing).totalCPM
      = (computeGameTruth scn timing).capA
        + (computeGameTruth scn timing).capA
          / (1 + scn.rRetire.getD scn.r) ^ scn.rle := by
    simp [computeGameTruth, hb]
  have htotPPPM : (computeGameTruth scn timing).totalPPPM
      = (computeGameTruth scn timing).capA
        + (computeGameTruth scn timing).capA
          / (1 + computeRealRate (scn.rRetire.getD scn.r) scn.g) ^ scn.rle := by
    simp [computeGameTruth, hb]
  constructor
  · rw [htotCPM]
    apply lt_add_of_pos_right
    rw [hcapA]
    exact div_pos hCA (pow_pos h1rd _)
  · rw [htotPPPM]
    apply lt_add_of_pos_right
    rw [hcapA]
    exact div_pos hCA (pow_pos h1rr _)

/-- Witness for C9 at a concrete no-bequest scenario with a 60000 shortfall. -/
theorem totals_exceed_capA_witness :
    ({ income := 100000, wrr := 0.8, ss := 20000, rwle := 15, rle := 20,
       g := 0.03, r := 0.08, pvcur := 0, rRetire := none, bequest := none } :
        GameScenario).bequest = none ∧
    0 < (computeGameTruth
      { income := 100000, wrr := 0.8, ss := 20000, rwle := 15, rle := 20,
        g := 0.03, r := 0.08, pvcur := 0, rRetire := none, bequest := none }
      Timing.END).need_today ∧
    (computeGameTruth
      { income := 100000, wrr := 0.8, ss := 20000, rwle := 15, rle := 20,
        g := 0.03, r := 0.08, pvcur := 0, rRetire := none, bequest := none }
      Timing.END).capA < (computeGameTruth
      { income := 100000, wrr := 0.8, ss := 20000, rwle := 15, rle := 20,
        g := 0.03, r := 0.08, pvcur := 0, rRetire := none, bequest := none }
      Timing.END).totalCPM := by
  refine ⟨rfl, ?_, ?_⟩
  · norm_num [computeGameTruth, lt_max_iff]
  · exact (totals_exceed_capA _ Timing.END rfl
      (by norm_num [computeGameTruth, lt_max_iff])
      (by norm_num [Option.getD]) (by norm_num) (by norm_num)).1

/-- Claim C10: the truth computation uses the in-retirement rate
(`rRetire` when present, otherwise `r`) for the retirement-phase math:
`r_real = (1 + rDuring)/(1 + g) - 1` and `keepCPM = capA/(1 + rDuring)^rle`;
the three savings fields always use the pre-retirement rate `r` over
`rwle` years regardless of `rRetire`. -/
theorem computeGameTruth_rates (scn : GameScenario) (timing : Timing) :
    ((computeGameTruth scn timing).r_real
      = (1 + scn.rRetire.getD scn.r) / (1 + scn.g) - 1) ∧
    ((computeGameTruth scn timing).keepCPM
      = (computeGameTruth scn timing).capA / (1 + scn.rRetire.getD scn.r) ^ scn.rle) ∧
    (∀ p : ℚ, scn.rRetire = some p →
      (computeGameTruth scn timing).r_real = (1 + p) / (1 + scn.g) - 1) ∧
    (scn.rRetire = none →
      (computeGameTruth scn timing).r_real = (1 + scn.r) / (1 + scn.g) - 1) ∧
    ((computeGameTruth scn timing).svA
      = annualSavings scn.pvcur (computeGameTruth scn timing).capA scn.r scn.rwle timing) ∧
    ((computeGameTruth scn timing).svCPM
      = annualSavings scn.pvcur (computeGameTruth scn timing).totalCPM scn.r scn.rwle timing) ∧
    ((computeGameTruth scn timing).svPPPM
      = annualSavings scn.pvcur (computeGameTruth scn timing).totalPPPM scn.r scn.rwle timing) := by
  refine ⟨?_, ?_, ?_, ?_, ?_, ?_, ?_⟩
  · simp [computeGameTruth, computeRealRate]
  · simp [computeGameTruth]
  · intro p hp
    simp [computeGameTruth, computeRealRate, hp]
  · intro hn
    simp [computeGameTruth, computeRealRate, hn]
  · simp [computeGameTruth]
  · simp [computeGameTruth]
  · simp [computeGameTruth]

/-- Witness for C10 at a concrete scenario with `rRetire = 0.07`. -/
theorem computeGameTruth_rates_witness :
    ({ income := 90000, wrr := 0.75, ss := 15000, rwle := 10, rle := 25,
       g := 0.03, r := 0.08, pvcur := 1000, rRetire := some 0.07, bequest := none } :
        GameScenario).rRetire = some 0.07 ∧
    (computeGameTruth
      { income := 90000, wrr := 0.75, ss := 15000, rwle := 10, rle := 25,
        g := 0.03, r := 0.08, pvcur := 1000, rRetire := some 0.07, bequest := none }
      Timing.END).r_real = (1 + 0.07) / (1 + 0.03) - 1 := by
  constructor
  · rfl
  · exact (computeGameTruth_rates
      { income := 90000, wrr := 0.75, ss := 15000, rwle := 10, rle := 25,
        g := 0.03, r := 0.08, pvcur := 1000, rRetire := some 0.07, bequest := none }
      Timing.END).2.2.1 0.07 rfl

end RetireGame
